import Mathlib

/-!
# Verification of `etl_create_json_from_webservice.py`

A shallow embedding of the single source file of the repository
`markevis/DataFromWebService` and proofs of the specification claims about it.

Modelling conventions:

* JSON values are the inductive `Json`; integers stand in for the numeric
  leaves (no record in the claims depends on numerics).
* The HTTP transport (`requests.get`) is an external collaborator.  Its
  observable behaviour for one request is an `HttpEvent`: either an exception
  class raised by the transport (timeout, connection error, another
  `RequestException`, another `Exception`) or a completed response carrying a
  status code and a body.
* A response `Body` bundles the raw text with the outcome of `json`-decoding
  it (`Except`: the error string of the `JSONDecodeError` on failure).  The
  decoder is deterministic, so bundling text and parse result is faithful.
* `resposta.raise_for_status()` raises `HTTPError` exactly when
  `400 <= status_code < 600` (documented behaviour of `requests`); the
  `reason` phrase of its message is abstracted to the status-code/url part.
* A `json.JSONDecodeError` raised by `resposta.json()` is dispatched to the
  dedicated `except json.JSONDecodeError` handler of the source (lines 31-34),
  as that handler's own comment documents; i.e. the decode error is not a
  `requests.exceptions.RequestException` (the pre-2.27 `requests` hierarchy
  that the source's handler ladder is written against).
* Python `dict`s become association lists `List (String × Json)`; key
  membership is `any`, and inserting a fresh key appends it (insertion order).
* Applying `record["k"] = []` to a non-`dict` record raises a `TypeError`
  that no handler in `consultar_varias_inscricoes` catches, aborting the run
  before any output is written; the aborted run is modelled as `none`.
-/

/-- A JSON value, as decoded by `json` / returned by `resposta.json()`. -/
inductive Json where
  | null : Json
  | bool (b : Bool) : Json
  | num (n : Int) : Json
  | str (s : String) : Json
  | arr (xs : List Json) : Json
  | obj (fields : List (String × Json)) : Json

mutual

/-- `json.dumps(v, ensure_ascii=False)`: serialization of a JSON value
(string escaping is not modelled; no claim depends on it). -/
def Json.dumps : Json → String
  | .null => "null"
  | .bool true => "true"
  | .bool false => "false"
  | .num n => toString n
  | .str s => "\"" ++ s ++ "\""
  | .arr xs => "[" ++ dumpsElems xs ++ "]"
  | .obj fs => "\x7b" ++ dumpsFields fs ++ "\x7d"

/-- Comma-separated serialization of array elements. -/
def dumpsElems : List Json → String
  | [] => ""
  | [x] => Json.dumps x
  | x :: xs => Json.dumps x ++ ", " ++ dumpsElems xs

/-- Comma-separated serialization of object members. -/
def dumpsFields : List (String × Json) → String
  | [] => ""
  | [(k, v)] => "\"" ++ k ++ "\": " ++ Json.dumps v
  | (k, v) :: fs => "\"" ++ k ++ "\": " ++ Json.dumps v ++ ", " ++ dumpsFields fs

end

/-- Key membership in an association list: Python `k in record` for a dict. -/
def hasKeyF (fields : List (String × Json)) (k : String) : Bool :=
  fields.any (fun p => p.1 == k)

/-- `record.get(k)` on a JSON object (first binding wins, as after decoding). -/
def Json.lookup : Json → String → Option Json
  | .obj fields, k => (fields.find? (fun p => p.1 == k)).map (fun p => p.2)
  | _, _ => none

/-- `k in record` on a JSON value that is an object. -/
def Json.hasKey : Json → String → Bool
  | .obj fields, k => hasKeyF fields k
  | _, _ => false

/-- Whether a JSON value is an object (`isinstance(record, dict)`). -/
def Json.isObj : Json → Bool
  | .obj _ => true
  | _ => false

/-- The body of a completed HTTP response: the raw text (`resposta.text`)
together with the result of decoding it (`resposta.json()`), which is the
decoded value or the `JSONDecodeError` message. -/
structure Body where
  text : String
  parsed : Except String Json

/-- Observable behaviour of the transport for one `requests.get` call:
one of the exception classes the handler ladder distinguishes, or a
completed response with status code and body. -/
inductive HttpEvent where
  | timeout : HttpEvent
  | connectionError (cause : String) : HttpEvent
  | otherRequestError (cause : String) : HttpEvent
  | otherError (cause : String) : HttpEvent
  | response (status : Nat) (body : Body) : HttpEvent

/-- The dictionary returned by `consultar_auditoria`: `status` is the tag,
`success` carries `data`, `failed` carries `error` and optionally
`raw_response`. -/
inductive QueryResult where
  | success (data : Json) : QueryResult
  | failed (error : String) (raw_response : Option String) : QueryResult

/-- The `raw_response` key of the returned dictionary, when present. -/
def QueryResult.raw_response : QueryResult → Option String
  | .success _ => none
  | .failed _ r => r

/-- The fixed service endpoint of the source (line 10), up to the identifier. -/
def url_base : String :=
  "https://sistemas.sefaz.go.gov.br/gre-service/v1/relatorio/consulta-publica-auditorias/0/"

/-- `url = f'...{numero_inscricao}'` (line 10). -/
def montar_url (numero : String) : String := url_base ++ numero

/-- The text of the `HTTPError` built by `raise_for_status` for a status in
`[400, 600)` (the `reason` phrase is abstracted away). -/
def httpErrorStr (status : Nat) (url : String) : String :=
  toString status ++
    (if status < 500 then " Client Error for url: " else " Server Error for url: ") ++ url

/-- `error_msg` of the `HTTPError` handler before the body inspection
(line 20). -/
def httpErrorMsg (numero : String) (status : Nat) : String :=
  "HTTP Error for registration " ++ numero ++ ": " ++
    httpErrorStr status (montar_url numero) ++ ". Status: " ++ toString status

/-- `consultar_auditoria` (source lines 5-36), as a function of the
identifier and of the transport's behaviour for the issued request.  The
`try` body performs `requests.get`, `raise_for_status` and `resposta.json()`;
each exception class is returned as the corresponding handler's dictionary. -/
def consultar_auditoria (numero : String) (ev : HttpEvent) : QueryResult :=
  match ev with
  | .timeout =>
      .failed ("Timeout exceeded while querying registration " ++ numero ++ ".") none
  | .connectionError cause =>
      .failed ("Connection error for registration " ++ numero ++ ": " ++ cause ++
        ". Check your internet or the webservice server.") none
  | .otherRequestError cause =>
      .failed ("Request error for registration " ++ numero ++ ": " ++ cause ++ ".") none
  | .otherError cause =>
      .failed ("Unexpected error for registration " ++ numero ++ ": " ++ cause ++ ".") none
  | .response status body =>
      if 400 ≤ status ∧ status < 600 then
        -- raise_for_status raised HTTPError (lines 18-26)
        match body.parsed with
        | .ok details =>
            .failed (httpErrorMsg numero status ++ ". Details: " ++ Json.dumps details)
              (some body.text)
        | .error _ =>
            .failed (httpErrorMsg numero status ++ ". Raw response: " ++ body.text)
              (some body.text)
      else
        -- raise_for_status passed; resposta.json() is attempted (lines 15, 31-34)
        match body.parsed with
        | .ok data => .success data
        | .error e =>
            .failed ("Error decoding JSON for registration " ++ numero ++ ": " ++ e ++ ".")
              (some body.text)

/-- The two list-valued keys the aggregator guarantees (source lines 98-104). -/
def k_campos : String := "CampoPersonalizadoTermoBeneficioList"

/-- The second guaranteed key. -/
def k_auditorias : String := "Auditorias"

/-- `if k not in record: record[k] = []` on a dict (insertion appends). -/
def ensureKey (fields : List (String × Json)) (k : String) : List (String × Json) :=
  if hasKeyF fields k then fields else fields ++ [(k, Json.arr [])]

/-- The per-record body of the aggregator's inner loop (lines 97-106):
insert `k_campos` then `k_auditorias` when missing.  On a non-object record
the subscript assignment raises an uncaught `TypeError` (modelled `none`). -/
def normalizeRecord : Json → Option Json
  | .obj fields => some (.obj (ensureKey (ensureKey fields k_campos) k_auditorias))
  | _ => none

/-- The inner `for record in dados_retornados` loop: records are processed
left to right, the first `TypeError` aborts the run. -/
def normalizeAll : List Json → Option (List Json)
  | [] => some []
  | r :: rs =>
      match normalizeRecord r, normalizeAll rs with
      | some r2, some rs2 => some (r2 :: rs2)
      | _, _ => none

/-- `if not isinstance(dados_retornados, list): dados_retornados = [dados_retornados]`
(lines 92-93). -/
def wrapPayload : Json → List Json
  | .arr xs => xs
  | d => [d]

/-- One entry of the output document (`entrada_inscricao`, lines 82-117).
Keys that the source adds only on some paths are `Option` fields. -/
structure Entrada where
  numero_inscricao_consultado : String
  status : String
  auditorias : List Json
  error : Option String
  raw_response : Option String

/-- The loop body of `consultar_varias_inscricoes` for one identifier
(lines 79-117): build `entrada_inscricao` from the query result. -/
def processar_inscricao (numero : String) (res : QueryResult) : Option Entrada :=
  match res with
  | .failed err raw =>
      some { numero_inscricao_consultado := numero, status := "failed",
             auditorias := [], error := some err, raw_response := raw }
  | .success dados =>
      if (wrapPayload dados).isEmpty then
        some { numero_inscricao_consultado := numero, status := "no_data_returned",
               auditorias := [], error := none, raw_response := none }
      else
        match normalizeAll (wrapPayload dados) with
        | some regs =>
            some { numero_inscricao_consultado := numero, status := "success",
                   auditorias := regs, error := none, raw_response := none }
        | none => none

/-- `consultar_varias_inscricoes` (lines 66-119), as a function of the
identifier list and of the transport behaviour per identifier: the in-memory
`todos_resultados_por_inscricao` list, or `none` when an uncaught exception
aborts the run before anything is written.  The final file write (lines
121-128) is a serialization sink outside the embedding. -/
def consultar_varias_inscricoes (inscricoes : List String) (env : String → HttpEvent) :
    Option (List Entrada) :=
  match inscricoes with
  | [] => some []
  | numero :: rest =>
      match processar_inscricao numero (consultar_auditoria numero (env numero)),
            consultar_varias_inscricoes rest env with
      | some e, some l => some (e :: l)
      | _, _ => none

/-- Python `str.strip()` on the character list: drop whitespace from both
ends (ASCII scope; the Unicode extras of Python's whitespace set are not
modelled, no claim depends on them). -/
def stripChars (cs : List Char) : List Char :=
  ((cs.dropWhile Char.isWhitespace).reverse.dropWhile Char.isWhitespace).reverse

/-- `s.strip()`. -/
def pyStrip (s : String) : String := ⟨stripChars s.data⟩

/-- `s.lower()` (ASCII scope). -/
def pyLower (s : String) : String := ⟨s.data.map Char.toLower⟩

/-- The pure core of `ler_inscricoes_xls` (lines 62-64): the designated
column arrives as the list of its cell values already forced to strings by
`astype(str)` (pandas renders a missing value as `"nan"`); each value is
stripped, and a value is kept when it is non-empty (`if s`) and not `'nan'`
case-insensitively. -/
def ler_inscricoes (valores : List String) : List String :=
  (valores.map pyStrip).filter (fun s => !(s == "") && !(pyLower s == "nan"))

/-- Written from the spec's words (§4.1 / §3 Identifier): trim each value
and drop exactly those values that are empty after trimming or equal
case-insensitively to the missing-value marker. -/
def identifierSourceSpec (valores : List String) : List String :=
  (valores.map pyStrip).filter (fun s => decide (s ≠ "" ∧ pyLower s ≠ "nan"))

/-- Exception-class membership of one raised exception, as the `except`
ladder of `consultar_auditoria` sees it (every value is also an `Exception`). -/
structure PyExc where
  isTimeout : Bool
  isHTTPError : Bool
  isConnectionError : Bool
  isRequestError : Bool
  isJSONDecodeError : Bool

/-- The class hierarchy of the exceptions the `try` body can raise:
`Timeout`, `HTTPError` and `ConnectionError` are `RequestException`s;
`HTTPError` is disjoint from `ConnectionError` and from `Timeout`
(`ConnectTimeout` is both a `ConnectionError` and a `Timeout`, which is why
their overlap is not excluded); a `json.JSONDecodeError` raised by
`resposta.json()` is not a `RequestException` (see the module comment). -/
def PyExc.wellFormed (e : PyExc) : Prop :=
  (e.isTimeout = true → e.isRequestError = true) ∧
  (e.isHTTPError = true → e.isRequestError = true) ∧
  (e.isConnectionError = true → e.isRequestError = true) ∧
  ¬(e.isHTTPError = true ∧ e.isConnectionError = true) ∧
  ¬(e.isHTTPError = true ∧ e.isTimeout = true) ∧
  (e.isJSONDecodeError = true → e.isRequestError = false)

instance (e : PyExc) : Decidable e.wellFormed := by
  unfold PyExc.wellFormed
  infer_instance

/-- The six handlers of the `except` ladder (lines 16-36). -/
inductive Handler where
  | timeoutH : Handler
  | httpErrorH : Handler
  | connectionH : Handler
  | requestH : Handler
  | decodeH : Handler
  | genericH : Handler
deriving DecidableEq

/-- Python's dispatch over the source's `except` clauses, in their order:
`Timeout` (16), `HTTPError` (18), `ConnectionError` (27),
`RequestException` (29), `json.JSONDecodeError` (31), `Exception` (35). -/
def classify (e : PyExc) : Handler :=
  if e.isTimeout then .timeoutH
  else if e.isHTTPError then .httpErrorH
  else if e.isConnectionError then .connectionH
  else if e.isRequestError then .requestH
  else if e.isJSONDecodeError then .decodeH
  else .genericH

/-- The five failure classes of spec §4.2. -/
inductive FailClass where
  | timeoutC : FailClass
  | connectionC : FailClass
  | httpC : FailClass
  | decodeC : FailClass
  | catchAllC : FailClass
deriving DecidableEq

/-- The spec's class of each handler: the two generic handlers (29 and 35)
are both the spec's catch-all class 5. -/
def toClass : Handler → FailClass
  | .timeoutH => .timeoutC
  | .httpErrorH => .httpC
  | .connectionH => .connectionC
  | .requestH => .catchAllC
  | .decodeH => .decodeC
  | .genericH => .catchAllC

/-- Written from the spec's words (§4.2 priority): timeout first, then
connection failure, then HTTP-status failure, then JSON-decode failure,
then catch-all. -/
def classifySpecOrder (e : PyExc) : FailClass :=
  if e.isTimeout then .timeoutC
  else if e.isConnectionError then .connectionC
  else if e.isHTTPError then .httpC
  else if e.isJSONDecodeError then .decodeC
  else .catchAllC

/-- A transport behaviour used to exercise the aggregator on concrete input:
identifier `"1"` gets a successful empty-list response, every other
identifier times out. -/
def envW : String → HttpEvent := fun n =>
  if n == "1" then .response 200 ⟨"[]", .ok (.arr [])⟩ else .timeout

/-- The concrete output entry produced for identifier `"1"` when its query
times out. -/
def entrada_timeout_1 : Entrada :=
  { numero_inscricao_consultado := "1", status := "failed", auditorias := [],
    error := some ("Timeout exceeded while querying registration " ++ "1" ++ "."),
    raw_response := none }

/-- Key membership distributes over concatenation of field lists. -/
theorem hasKeyF_append (fs gs : List (String × Json)) (k : String) :
    hasKeyF (fs ++ gs) k = (hasKeyF fs k || hasKeyF gs k) := by
  simp [hasKeyF, List.any_append]

/-- After `ensureKey fs k` the key `k` is present. -/
theorem hasKeyF_ensureKey_self (fs : List (String × Json)) (k : String) :
    hasKeyF (ensureKey fs k) k = true := by
  rw [ensureKey]
  cases h : hasKeyF fs k with
  | true => simp [h]
  | false =>
      rw [if_neg (by simp [h]), hasKeyF_append, h]
      simp [hasKeyF]

/-- `ensureKey fs k'` does not affect membership of a different key `k`. -/
theorem hasKeyF_ensureKey_other (fs : List (String × Json)) (k k' : String)
    (h : (k' == k) = false) :
    hasKeyF (ensureKey fs k') k = hasKeyF fs k := by
  rw [ensureKey]
  cases h2 : hasKeyF fs k' with
  | true => simp
  | false =>
      rw [if_neg (by simp), hasKeyF_append]
      simp [hasKeyF, h]

/-- Inserting a missing key makes it findable, bound to the empty list. -/
theorem find?_ensureKey_absent (fs : List (String × Json)) (k : String)
    (h : hasKeyF fs k = false) :
    (ensureKey fs k).find? (fun p => p.1 == k) = some (k, Json.arr []) := by
  rw [ensureKey, if_neg (by simp [h]), List.find?_append]
  have hnone : fs.find? (fun p => p.1 == k) = none := by
    rw [List.find?_eq_none]
    intro x hx
    simp only [hasKeyF, List.any_eq_false] at h
    simpa using h x hx
  simp [hnone, List.find?]

/-- `ensureKey fs k'` does not affect lookup of a different key `k`. -/
theorem find?_ensureKey_other (fs : List (String × Json)) (k k' : String)
    (h : (k' == k) = false) :
    (ensureKey fs k').find? (fun p => p.1 == k) = fs.find? (fun p => p.1 == k) := by
  rw [ensureKey]
  cases h2 : hasKeyF fs k' with
  | true => simp
  | false =>
      rw [if_neg (by simp), List.find?_append]
      simp [List.find?, h]

/-- The inner record loop keeps the number of records. -/
theorem normalizeAll_length (rs rs2 : List Json) (h : normalizeAll rs = some rs2) :
    rs2.length = rs.length := by
  induction rs generalizing rs2 with
  | nil => simp [normalizeAll] at h; simp [← h]
  | cons r rest ih =>
      rw [normalizeAll] at h
      cases hr : normalizeRecord r with
      | none => rw [hr] at h; simp at h
      | some r2 =>
          rw [hr] at h
          cases hrest : normalizeAll rest with
          | none => rw [hrest] at h; simp at h
          | some rest2 =>
              rw [hrest] at h
              simp at h
              rw [← h]
              simp [ih rest2 hrest]

/-- The inner record loop succeeds on a list of objects. -/
theorem normalizeAll_all_obj (rs : List Json) (h : rs.all Json.isObj = true) :
    ∃ rs2, normalizeAll rs = some rs2 := by
  induction rs with
  | nil => exact ⟨[], rfl⟩
  | cons r rest ih =>
      simp [List.all_cons] at h
      obtain ⟨h1, h2⟩ := h
      obtain ⟨rs2, hrs2⟩ := ih (by simpa using h2)
      cases r with
      | obj fields => exact ⟨_, by rw [normalizeAll, hrs2]; rfl⟩
      | null => simp [Json.isObj] at h1
      | bool b => simp [Json.isObj] at h1
      | num n => simp [Json.isObj] at h1
      | str s => simp [Json.isObj] at h1
      | arr xs => simp [Json.isObj] at h1

/-- The loop body yields an entry carrying the queried identifier whenever
every successful payload is an object or a list of objects. -/
theorem processar_some (numero : String) (res : QueryResult)
    (h : ∀ d, res = .success d → (wrapPayload d).all Json.isObj = true) :
    ∃ e, processar_inscricao numero res = some e ∧
      e.numero_inscricao_consultado = numero := by
  cases res with
  | failed err raw => exact ⟨_, rfl, rfl⟩
  | success dados =>
      have hobj := h dados rfl
      rw [processar_inscricao]
      by_cases hl : (wrapPayload dados).isEmpty = true
      · rw [if_pos hl]
        exact ⟨_, rfl, rfl⟩
      · obtain ⟨rs2, hrs2⟩ := normalizeAll_all_obj _ hobj
        rw [if_neg hl, hrs2]
        exact ⟨_, rfl, rfl⟩

/-- Each produced entry satisfies the status/audits invariant of C10. -/
theorem processar_status_iff (numero : String) (res : QueryResult) (e : Entrada)
    (h : processar_inscricao numero res = some e) :
    (e.status = "success" ↔ e.auditorias ≠ []) ∧
    ((e.status = "failed" ∨ e.status = "no_data_returned") → e.auditorias = []) := by
  cases res with
  | failed err raw =>
      rw [processar_inscricao] at h
      obtain rfl := Option.some.inj h.symm
      refine ⟨by simp, fun _ => rfl⟩
  | success dados =>
      rw [processar_inscricao] at h
      by_cases hl : (wrapPayload dados).isEmpty = true
      · rw [if_pos hl] at h
        obtain rfl := Option.some.inj h.symm
        refine ⟨by simp, fun _ => rfl⟩
      · rw [if_neg hl] at h
        cases hrs : normalizeAll (wrapPayload dados) with
        | none => rw [hrs] at h; exact absurd h (by simp)
        | some regs =>
            rw [hrs] at h
            obtain rfl := Option.some.inj h.symm
            have hlen := normalizeAll_length _ _ hrs
            have hne : regs ≠ [] := by
              intro hnil
              rw [hnil] at hlen
              have hw : wrapPayload dados = [] := List.length_eq_zero.mp hlen.symm
              exact hl (by rw [hw]; rfl)
            refine ⟨by simpa using hne, by simp⟩

/-- C1: for every input list of identifiers and every transport behaviour
whose successful payloads fit the data model (an object or a list of
objects, per spec §3 `QueryOutcome`), the aggregator produces exactly one
entry per input identifier, in input order, so the output length equals the
input length regardless of how many queries failed. -/
theorem result_covers_identifiers (inscricoes : List String) (env : String → HttpEvent)
    (h : ∀ numero ∈ inscricoes, ∀ d,
        consultar_auditoria numero (env numero) = .success d →
        (wrapPayload d).all Json.isObj = true) :
    ∃ l, consultar_varias_inscricoes inscricoes env = some l ∧
      l.map (fun e => e.numero_inscricao_consultado) = inscricoes ∧
      l.length = inscricoes.length := by
  induction inscricoes with
  | nil => exact ⟨[], rfl, rfl, rfl⟩
  | cons numero rest ih =>
      obtain ⟨l, hl, hmap, hlen⟩ := ih (fun n hn d hd => h n (List.mem_cons_of_mem _ hn) d hd)
      obtain ⟨e, he, hnum⟩ := processar_some numero (consultar_auditoria numero (env numero))
        (fun d hd => h numero (List.mem_cons_self _ _) d hd)
      refine ⟨e :: l, ?_, ?_, ?_⟩
      · rw [consultar_varias_inscricoes, he, hl]
      · simp [hmap, hnum]
      · simp [hlen]

/-- Witness for C1: on identifiers `["1", "2"]` with one success and one
timeout, the aggregator yields two entries carrying the identifiers in
order. -/
theorem result_covers_identifiers_witness :
    ∃ l, consultar_varias_inscricoes ["1", "2"] envW = some l ∧
      l.map (fun e => e.numero_inscricao_consultado) = ["1", "2"] ∧ l.length = 2 :=
  result_covers_identifiers ["1", "2"] envW (by
    intro numero hm d hd
    rcases List.mem_cons.mp hm with rfl | hm2
    · rw [show consultar_auditoria "1" (envW "1") = .success (.arr []) from rfl] at hd
      obtain rfl : Json.arr [] = d := by injection hd
      rfl
    · rw [List.mem_singleton] at hm2
      subst hm2
      simp [envW, consultar_auditoria] at hd)

/-- C2: over the real exception hierarchy (`PyExc.wellFormed`), the
dispatch of the source's `except` ladder (`classify`, in source clause
order) assigns every raised exception the same one of the spec's five
failure classes as the spec's own priority order (`classifySpecOrder`:
timeout, then connection failure, then HTTP-status failure, then
JSON-decode failure, then catch-all); the classes are mutually exclusive and
collectively exhaustive because `classify` is a total function into the
handler set.  Moreover the query step always returns a tagged result
(`success` or `failed`) and never propagates an exception. -/
theorem query_classification :
    (∀ e : PyExc, e.wellFormed → toClass (classify e) = classifySpecOrder e) ∧
    (∀ (numero : String) (ev : HttpEvent),
      (∃ d, consultar_auditoria numero ev = .success d) ∨
      (∃ msg raw, consultar_auditoria numero ev = .failed msg raw)) := by
  constructor
  · rintro ⟨t, hh, c, r, j⟩ hw
    obtain ⟨w1, w2, w3, w4, w5, w6⟩ := hw
    cases t <;> cases hh <;> cases c <;> cases r <;> cases j <;>
      simp_all [classify, classifySpecOrder, toClass, PyExc.wellFormed]
  · intro numero ev
    cases ev with
    | timeout => exact Or.inr ⟨_, _, rfl⟩
    | connectionError cause => exact Or.inr ⟨_, _, rfl⟩
    | otherRequestError cause => exact Or.inr ⟨_, _, rfl⟩
    | otherError cause => exact Or.inr ⟨_, _, rfl⟩
    | response status body =>
        rw [consultar_auditoria]
        by_cases h : 400 ≤ status ∧ status < 600
        · rw [if_pos h]
          cases body.parsed with
          | ok d => exact Or.inr ⟨_, _, rfl⟩
          | error e => exact Or.inr ⟨_, _, rfl⟩
        · rw [if_neg h]
          cases body.parsed with
          | ok d => exact Or.inl ⟨_, rfl⟩
          | error e => exact Or.inr ⟨_, _, rfl⟩

/-- Witness for C2: a pure `Timeout` (which, being a `RequestException`,
also matches the later generic clause) is classified as the timeout class
by both orders. -/
theorem query_classification_witness :
    PyExc.wellFormed ⟨true, false, false, true, false⟩ ∧
    toClass (classify ⟨true, false, false, true, false⟩) =
      classifySpecOrder ⟨true, false, false, true, false⟩ :=
  ⟨by decide, query_classification.1 ⟨true, false, false, true, false⟩ (by decide)⟩

/-- Counterexample to C3 as stated: (i) a non-2xx status outside `[400,600)`
(here 304 with a JSON body) is not turned into a Failure at all —
`raise_for_status` does not raise, the body is decoded and the outcome is
`success`; (ii) for a 4xx/5xx response whose error body does parse as JSON
(here 500 with body `"null"`), the raw response text is still attached as
`raw_response`, although the claim says it is attached only in the
non-JSON case. -/
theorem http_status_counterexample :
    consultar_auditoria "1" (.response 304 ⟨"7", .ok (.num 7)⟩) = .success (.num 7) ∧
    (consultar_auditoria "1" (.response 500 ⟨"null", .ok .null⟩)).raw_response = some "null" :=
  ⟨rfl, rfl⟩

/-- C3 (amended): for every identifier whose query returns an HTTP status
in `[400, 600)`, the outcome is a Failure whose message includes the status
code; if the error body parses as JSON the decoded details are embedded in
the message, otherwise the raw response text is embedded in the message;
in both cases the raw response text is attached as `raw_response`. -/
theorem http_status_failure (numero : String) (status : Nat) (body : Body)
    (h1 : 400 ≤ status) (h2 : status < 600) :
    ∃ msg,
      consultar_auditoria numero (.response status body) = .failed msg (some body.text) ∧
      (∃ a b, msg = a ++ toString status ++ b) ∧
      ((∃ d, body.parsed = .ok d ∧
          msg = httpErrorMsg numero status ++ ". Details: " ++ Json.dumps d) ∨
       ((∃ e, body.parsed = .error e) ∧
          msg = httpErrorMsg numero status ++ ". Raw response: " ++ body.text)) := by
  rw [consultar_auditoria, if_pos ⟨h1, h2⟩]
  cases hp : body.parsed with
  | ok d =>
      refine ⟨_, rfl, ?_, Or.inl ⟨d, rfl, rfl⟩⟩
      refine ⟨"HTTP Error for registration " ++ numero ++ ": " ++
        httpErrorStr status (montar_url numero) ++ ". Status: ",
        ". Details: " ++ Json.dumps d, ?_⟩
      rw [httpErrorMsg]
      simp [String.append_assoc]
  | error e =>
      refine ⟨_, rfl, ?_, Or.inr ⟨⟨e, rfl⟩, rfl⟩⟩
      refine ⟨"HTTP Error for registration " ++ numero ++ ": " ++
        httpErrorStr status (montar_url numero) ++ ". Status: ",
        ". Raw response: " ++ body.text, ?_⟩
      rw [httpErrorMsg]
      simp [String.append_assoc]

/-- Witness for C3 (amended): a 404 with a non-JSON body yields a Failure
whose message embeds the status code and the raw text, with the raw text
attached. -/
theorem http_status_failure_witness :
    (400 : Nat) ≤ 404 ∧ (404 : Nat) < 600 ∧
    ∃ msg,
      consultar_auditoria "1" (.response 404 ⟨"x", .error "boom"⟩) = .failed msg (some "x") ∧
      (∃ a b, msg = a ++ toString (404 : Nat) ++ b) ∧
      ((∃ d, (Body.mk "x" (.error "boom")).parsed = .ok d ∧
          msg = httpErrorMsg "1" 404 ++ ". Details: " ++ Json.dumps d) ∨
       ((∃ e, (Body.mk "x" (.error "boom")).parsed = .error e) ∧
          msg = httpErrorMsg "1" 404 ++ ". Raw response: " ++ "x")) :=
  ⟨by decide, by decide,
   http_status_failure "1" 404 ⟨"x", .error "boom"⟩ (by decide) (by decide)⟩

/-- C4: for every identifier whose query returns a 2xx status with a body
that is not valid JSON, the outcome is a Failure naming the decode error,
with `raw_response` set to the raw response text (the `'N/A'` placeholder
branch of line 33 is unreachable, since `resposta` is always bound when the
decode handler runs, so the raw text case of the claim's disjunction always
holds). -/
theorem decode_failure_message (numero : String) (status : Nat) (body : Body) (e : String)
    (h1 : 200 ≤ status) (h2 : status < 300) (hp : body.parsed = .error e) :
    consultar_auditoria numero (.response status body) =
      .failed ("Error decoding JSON for registration " ++ numero ++ ": " ++ e ++ ".")
        (some body.text) := by
  rw [consultar_auditoria, if_neg (by omega), hp]

/-- Witness for C4: a 200 with unparseable body `"oops"` yields the decode
Failure carrying the raw text. -/
theorem decode_failure_message_witness :
    (200 : Nat) ≤ 200 ∧ (200 : Nat) < 300 ∧
    consultar_auditoria "1" (.response 200 ⟨"oops", .error "bad"⟩) =
      .failed ("Error decoding JSON for registration " ++ "1" ++ ": " ++ "bad" ++ ".")
        (some "oops") :=
  ⟨by decide, by decide,
   decode_failure_message "1" 200 ⟨"oops", .error "bad"⟩ "bad" (by decide) (by decide) rfl⟩

/-- C5: for every identifier whose query succeeds with a payload that is a
single JSON object (not a list), the entry's audits list has exactly one
element, that element has both the custom-fields list field and the audits
list field present, and each is bound to the empty list when it was absent
from the payload. -/
theorem single_object_payload (numero : String) (fields : List (String × Json)) :
    ∃ r, processar_inscricao numero (.success (.obj fields)) =
        some { numero_inscricao_consultado := numero, status := "success",
               auditorias := [r], error := none, raw_response := none } ∧
      r.hasKey k_campos = true ∧ r.hasKey k_auditorias = true ∧
      (hasKeyF fields k_campos = false → r.lookup k_campos = some (.arr [])) ∧
      (hasKeyF fields k_auditorias = false → r.lookup k_auditorias = some (.arr [])) := by
  refine ⟨.obj (ensureKey (ensureKey fields k_campos) k_auditorias), rfl, ?_, ?_, ?_, ?_⟩
  · rw [Json.hasKey, hasKeyF_ensureKey_other _ _ _ (by decide), hasKeyF_ensureKey_self]
  · rw [Json.hasKey, hasKeyF_ensureKey_self]
  · intro h
    rw [Json.lookup, find?_ensureKey_other _ _ _ (by decide), find?_ensureKey_absent _ _ h]
    rfl
  · intro h
    have h2 : hasKeyF (ensureKey fields k_campos) k_auditorias = false := by
      rw [hasKeyF_ensureKey_other _ _ _ (by decide), h]
    rw [Json.lookup, find?_ensureKey_absent _ _ h2]
    rfl

/-- Witness for C5: the empty-object payload yields one audit record with
both keys inserted as empty lists. -/
theorem single_object_payload_witness :
    ∃ r, processar_inscricao "1" (.success (.obj [])) =
        some { numero_inscricao_consultado := "1", status := "success",
               auditorias := [r], error := none, raw_response := none } ∧
      r.hasKey k_campos = true ∧ r.hasKey k_auditorias = true ∧
      (hasKeyF [] k_campos = false → r.lookup k_campos = some (.arr [])) ∧
      (hasKeyF [] k_auditorias = false → r.lookup k_auditorias = some (.arr [])) :=
  single_object_payload "1" []

/-- C6: for every identifier whose query succeeds with the empty-list
payload, the entry's status is `no_data_returned` and its audits list is
empty (no error or raw-response keys are added). -/
theorem empty_list_payload (numero : String) :
    processar_inscricao numero (.success (.arr [])) =
      some { numero_inscricao_consultado := numero, status := "no_data_returned",
             auditorias := [], error := none, raw_response := none } := rfl

/-- C7: normalization of one record only inserts the custom-fields list and
audits list keys when absent (bound to empty lists, appended after the
original fields): a record already containing both passes through
unchanged, and in every case the original fields are preserved verbatim,
the added pairs being exactly the missing guaranteed keys with empty-list
values. -/
theorem normalization_frame (fields : List (String × Json)) :
    (Json.hasKey (.obj fields) k_campos = true → Json.hasKey (.obj fields) k_auditorias = true →
        normalizeRecord (.obj fields) = some (.obj fields)) ∧
    ∃ extra, normalizeRecord (.obj fields) = some (.obj (fields ++ extra)) ∧
      ∀ p ∈ extra,
        (p = (k_campos, Json.arr []) ∧ hasKeyF fields k_campos = false) ∨
        (p = (k_auditorias, Json.arr []) ∧ hasKeyF fields k_auditorias = false) := by
  constructor
  · intro h1 h2
    rw [Json.hasKey] at h1 h2
    have e1 : ensureKey fields k_campos = fields := by rw [ensureKey, if_pos h1]
    have e2 : ensureKey fields k_auditorias = fields := by rw [ensureKey, if_pos h2]
    rw [normalizeRecord, e1, e2]
  · cases h1 : hasKeyF fields k_campos with
    | true =>
        have e1 : ensureKey fields k_campos = fields := by rw [ensureKey, if_pos h1]
        cases h2 : hasKeyF fields k_auditorias with
        | true =>
            have e2 : ensureKey fields k_auditorias = fields := by rw [ensureKey, if_pos h2]
            refine ⟨[], ?_, by simp⟩
            rw [normalizeRecord, e1, e2, List.append_nil]
        | false =>
            have e2 : ensureKey fields k_auditorias = fields ++ [(k_auditorias, Json.arr [])] := by
              rw [ensureKey, if_neg (by rw [h2]; simp)]
            refine ⟨[(k_auditorias, Json.arr [])], ?_, ?_⟩
            · rw [normalizeRecord, e1, e2]
            · intro p hp
              rw [List.mem_singleton] at hp
              exact Or.inr ⟨hp, rfl⟩
    | false =>
        have e1 : ensureKey fields k_campos = fields ++ [(k_campos, Json.arr [])] := by
          rw [ensureKey, if_neg (by rw [h1]; simp)]
        cases h2 : hasKeyF fields k_auditorias with
        | true =>
            have h3 : hasKeyF (fields ++ [(k_campos, Json.arr [])]) k_auditorias = true := by
              rw [hasKeyF_append, h2]; rfl
            have e2 : ensureKey (fields ++ [(k_campos, Json.arr [])]) k_auditorias =
                fields ++ [(k_campos, Json.arr [])] := by
              rw [ensureKey, if_pos h3]
            refine ⟨[(k_campos, Json.arr [])], ?_, ?_⟩
            · rw [normalizeRecord, e1, e2]
            · intro p hp
              rw [List.mem_singleton] at hp
              exact Or.inl ⟨hp, rfl⟩
        | false =>
            have h3 : hasKeyF (fields ++ [(k_campos, Json.arr [])]) k_auditorias = false := by
              rw [hasKeyF_append, h2]
              decide
            have e2 : ensureKey (fields ++ [(k_campos, Json.arr [])]) k_auditorias =
                fields ++ [(k_campos, Json.arr []), (k_auditorias, Json.arr [])] := by
              rw [ensureKey, if_neg (by rw [h3]; simp), List.append_assoc]
              rfl
            refine ⟨[(k_campos, Json.arr []), (k_auditorias, Json.arr [])], ?_, ?_⟩
            · rw [normalizeRecord, e1, e2]
            · intro p hp
              rcases List.mem_cons.mp hp with hp | hp
              · exact Or.inl ⟨hp, rfl⟩
              · rw [List.mem_singleton] at hp
                exact Or.inr ⟨hp, rfl⟩

/-- Witness for C7: a record that already carries both guaranteed keys is
passed through unchanged. -/
theorem normalization_frame_witness :
    normalizeRecord (.obj [(k_campos, Json.arr []), (k_auditorias, Json.arr [])]) =
      some (.obj [(k_campos, Json.arr []), (k_auditorias, Json.arr [])]) :=
  (normalization_frame [(k_campos, Json.arr []), (k_auditorias, Json.arr [])]).1
    (by decide) (by decide)

/-- C8: the identifier source trims every column value (the values arrive
forced to strings by `astype(str)`), drops exactly those that are empty
after trimming or equal case-insensitively to the `nan` missing-value
marker, preserves the order of appearance (the result is a sublist of the
trimmed column), and does not deduplicate (each surviving value keeps its
multiplicity). -/
theorem identifier_source_props (valores : List String) :
    ler_inscricoes valores = identifierSourceSpec valores ∧
    List.Sublist (ler_inscricoes valores) (valores.map pyStrip) ∧
    (∀ s, s ∈ ler_inscricoes valores ↔
      (s ∈ valores.map pyStrip ∧ s ≠ "" ∧ pyLower s ≠ "nan")) ∧
    (∀ s, s ≠ "" → pyLower s ≠ "nan" →
      List.count s (ler_inscricoes valores) = List.count s (valores.map pyStrip)) := by
  have hpq : ∀ s, (!(s == "") && !(pyLower s == "nan")) = decide (s ≠ "" ∧ pyLower s ≠ "nan") := by
    intro s
    by_cases h1 : s = "" <;> by_cases h2 : pyLower s = "nan" <;> simp [h1, h2]
  refine ⟨?_, ?_, ?_, ?_⟩
  · rw [ler_inscricoes, identifierSourceSpec, List.filter_congr (fun a _ => hpq a)]
  · exact List.filter_sublist _
  · intro s
    rw [ler_inscricoes, List.mem_filter]
    constructor
    · rintro ⟨hm, hc⟩
      simp at hc
      exact ⟨hm, hc.1, hc.2⟩
    · rintro ⟨hm, h1, h2⟩
      exact ⟨hm, by simp [h1, h2]⟩
  · intro s h1 h2
    rw [ler_inscricoes, List.count_filter (by simp [h1, h2])]

/-- Witness for C8: on a concrete column the source agrees with the
spec-side filter and keeps both occurrences of `"7"` while dropping the
blank and the `"NaN"` marker. -/
theorem identifier_source_props_witness :
    ler_inscricoes [" 7 ", "", "NaN", "7"] = identifierSourceSpec [" 7 ", "", "NaN", "7"] ∧
    List.count "7" (ler_inscricoes [" 7 ", "", "NaN", "7"]) =
      List.count "7" ([" 7 ", "", "NaN", "7"].map pyStrip) :=
  ⟨(identifier_source_props [" 7 ", "", "NaN", "7"]).1,
   (identifier_source_props [" 7 ", "", "NaN", "7"]).2.2.2 "7" (by decide) (by decide)⟩

/-- C9: the output document is a deterministic function of the identifiers
and of the per-identifier query results: two runs in which the query
function returns identical results produce identical documents (the
embedding carries no timestamp or other ambient state). -/
theorem deterministic_output (inscricoes : List String) (env1 env2 : String → HttpEvent)
    (h : ∀ numero, consultar_auditoria numero (env1 numero) =
        consultar_auditoria numero (env2 numero)) :
    consultar_varias_inscricoes inscricoes env1 = consultar_varias_inscricoes inscricoes env2 := by
  induction inscricoes with
  | nil => rfl
  | cons numero rest ih =>
      simp only [consultar_varias_inscricoes]
      rw [h numero, ih]

/-- Witness for C9: two different transports (status 200 with body `"[]"`
versus status 201 with body `" []"`) whose query results coincide produce
the same document. -/
theorem deterministic_output_witness :
    consultar_varias_inscricoes ["1"] (fun _ => .response 200 ⟨"[]", .ok (.arr [])⟩) =
      consultar_varias_inscricoes ["1"] (fun _ => .response 201 ⟨" []", .ok (.arr [])⟩) :=
  deterministic_output ["1"] _ _ (fun _ => rfl)

/-- C10: in every entry the aggregator produces, status `success` holds iff
the entry's audits list is non-empty, and status `failed` or
`no_data_returned` entries always have an empty audits list. -/
theorem status_iff_audits (inscricoes : List String) (env : String → HttpEvent)
    (l : List Entrada) (h : consultar_varias_inscricoes inscricoes env = some l) :
    ∀ e ∈ l,
      (e.status = "success" ↔ e.auditorias ≠ []) ∧
      ((e.status = "failed" ∨ e.status = "no_data_returned") → e.auditorias = []) := by
  induction inscricoes generalizing l with
  | nil =>
      rw [consultar_varias_inscricoes] at h
      obtain rfl := Option.some.inj h.symm
      intro e he
      exact absurd he (List.not_mem_nil e)
  | cons numero rest ih =>
      rw [consultar_varias_inscricoes] at h
      cases hp : processar_inscricao numero (consultar_auditoria numero (env numero)) with
      | none => rw [hp] at h; exact absurd h (by simp)
      | some e0 =>
          rw [hp] at h
          cases hrest : consultar_varias_inscricoes rest env with
          | none => rw [hrest] at h; exact absurd h (by simp)
          | some l0 =>
              rw [hrest] at h
              obtain rfl := Option.some.inj h.symm
              intro e he
              rcases List.mem_cons.mp he with rfl | he2
              · exact processar_status_iff _ _ _ hp
              · exact ih l0 hrest e he2

/-- Witness for C10: the single entry of a run whose only query times out
has status `failed` and an empty audits list, satisfying both directions. -/
theorem status_iff_audits_witness :
    (entrada_timeout_1.status = "success" ↔ entrada_timeout_1.auditorias ≠ []) ∧
    ((entrada_timeout_1.status = "failed" ∨ entrada_timeout_1.status = "no_data_returned") →
      entrada_timeout_1.auditorias = []) :=
  status_iff_audits ["1"] (fun _ => .timeout) [entrada_timeout_1] rfl
    entrada_timeout_1 (List.mem_singleton.mpr rfl)
